import Mathlib

/-!
Formal model of the Superset job-posting automation
(`src/smart_post/services/automate_poster_v1.py` and `src/smart_post/main.py`).

The Python code drives a browser through Selenium.  Every primitive UI
operation it performs (wait for an element, find an element, click,
send_keys, execute a script, switch frames) either succeeds or raises an
exception.  We model one execution of a method as a function of an
*environment* that records, for each primitive operation the method
performs in source order, whether that operation succeeded (`none`) or
raised an exception of a given kind (`some e`).  The Lean definitions then
mirror the Python control flow — the `try`/`except` structure, the early
returns, the `finally` block — statement by statement, so a run of the
model corresponds to a run of the Python method under that schedule of
primitive outcomes.
-/

/-- Kinds of exceptions relevant to the automator.  In Selenium,
`TimeoutException`, `NoSuchElementException` and
`ElementClickInterceptedException` are all subclasses of
`WebDriverException`; `webDriver` stands for any other concrete
`WebDriverException`, and `other` for a non-WebDriver Python `Exception`.
Every kind here is a Python `Exception`, so an `except Exception` handler
catches all of them. -/
inductive Exn
  | timeout
  | noSuchElement
  | interceptedClick
  | webDriver
  | other
deriving DecidableEq, Repr

/-- First exception raised by a straight-line sequence of primitive
operations executed in order (a `some` entry aborts the rest, exactly as a
raise aborts the remainder of a Python `try` suite). -/
def firstRaise : List (Option Exn) → Option Exn
  | [] => none
  | none :: rest => firstRaise rest
  | some e :: _ => some e

/-- Primitive-operation outcomes for one call of
`ElementInteraction.safe_click` (automate_poster_v1.py lines 75-91):
the scroll-into-view script, the native `element.click()`, and the forced
JS click used as fallback. -/
structure ClickEnv where
  scroll : Option Exn
  click : Option Exn
  jsClick : Option Exn
deriving DecidableEq, Repr

/-- Outcome of the native part of `safe_click` (scroll into view, then
`element.click()`). -/
def nativeClickRaise (env : ClickEnv) : Option Exn :=
  firstRaise [env.scroll, env.click]

/-- Model of `ElementInteraction.safe_click` (lines 75-91).  The `try`
suite scrolls the element into view and clicks natively; an
`ElementClickInterceptedException` falls into the first handler, which
retries with a forced JS click inside its own `try/except Exception`;
any other `Exception` falls into the second handler and returns `False`. -/
def safe_click (env : ClickEnv) : Except Exn Bool :=
  match nativeClickRaise env with
  | none => Except.ok true
  | some e =>
    if e = Exn.interceptedClick then
      match env.jsClick with
      | none => Except.ok true
      | some _ => Except.ok false
    else Except.ok false

/-- Primitive-operation outcomes for one call of
`ElementInteraction.safe_input` (lines 93-101): `element.clear()` and
`element.send_keys(value)`. -/
structure InputEnv where
  clear : Option Exn
  sendKeys : Option Exn
deriving DecidableEq, Repr

/-- Model of `ElementInteraction.safe_input` (lines 93-101): clear and
type natively inside one `try`; any `Exception` is caught and converted
to `False`. -/
def safe_input (env : InputEnv) : Except Exn Bool :=
  match firstRaise [env.clear, env.sendKeys] with
  | none => Except.ok true
  | some _ => Except.ok false

/-- C5: the interaction primitives never propagate an exception and
collapse every failure to `false`: `safe_click` scrolls the element into
view and attempts a native click, exactly on an intercepted-click failure
falls back to a forced script-level click and returns `true` iff that
succeeds, and returns `false` on any other failure; `safe_input` returns
`false` on any failure instead of raising. -/
theorem safe_click_safe_input_contract (cenv : ClickEnv) (ienv : InputEnv) :
    (∃ b, safe_click cenv = Except.ok b) ∧
    (safe_click cenv = Except.ok true ↔
      (nativeClickRaise cenv = none ∨
        (nativeClickRaise cenv = some Exn.interceptedClick ∧ cenv.jsClick = none))) ∧
    (∃ b, safe_input ienv = Except.ok b) ∧
    (safe_input ienv = Except.ok true ↔ ienv.clear = none ∧ ienv.sendKeys = none) := by
  refine ⟨?_, ?_, ?_, ?_⟩
  · unfold safe_click
    rcases nativeClickRaise cenv with _ | e
    · exact ⟨true, rfl⟩
    · dsimp only
      by_cases he : e = Exn.interceptedClick
      · rw [if_pos he]
        rcases cenv.jsClick with _ | f
        · exact ⟨true, rfl⟩
        · exact ⟨false, rfl⟩
      · rw [if_neg he]
        exact ⟨false, rfl⟩
  · unfold safe_click
    rcases h : nativeClickRaise cenv with _ | e
    · simp
    · dsimp only
      by_cases he : e = Exn.interceptedClick
      · subst he
        rw [if_pos rfl]
        rcases hj : cenv.jsClick with _ | f
        · simp [hj]
        · simp [hj]
      · rw [if_neg he]
        simp [he]
  · unfold safe_input
    rcases firstRaise [ienv.clear, ienv.sendKeys] with _ | e
    · exact ⟨true, rfl⟩
    · exact ⟨false, rfl⟩
  · unfold safe_input
    rcases ienv with ⟨cl, sk⟩
    cases cl <;> cases sk <;> simp [firstRaise]

/-- Primitive-operation outcomes for one call of
`SupersetAutomator.fill_tinymce_field_by_label` (lines 789-829), in
source order: the 10-second wait for the label, the relative iframe
lookup, `switch_to.frame`, the wait for the TinyMCE `body`,
`body.clear()`, `body.send_keys(content)`, and
`switch_to.default_content()` (the same outcome also applies to the
restore attempted by the error handler, since it is the same driver
operation in the same driver state). -/
structure TinyEnv where
  labelWait : Option Exn
  iframeFind : Option Exn
  switchFrame : Option Exn
  bodyWait : Option Exn
  bodyClear : Option Exn
  bodySendKeys : Option Exn
  switchDefault : Option Exn
deriving DecidableEq, Repr

instance {α β : Type} [DecidableEq α] [DecidableEq β] : DecidableEq (Except α β) := fun x y =>
  match x, y with
  | Except.ok a, Except.ok b =>
    if h : a = b then isTrue (by rw [h]) else isFalse (by intro hc; cases hc; exact h rfl)
  | Except.error a, Except.error b =>
    if h : a = b then isTrue (by rw [h]) else isFalse (by intro hc; cases hc; exact h rfl)
  | Except.ok _, Except.error _ => isFalse (by intro hc; cases hc)
  | Except.error _, Except.ok _ => isFalse (by intro hc; cases hc)

/-- Result of a `fill_tinymce_field_by_label` call: the returned value or
propagated exception, together with the driver's interaction context at
exit (`inFrame = true` means the session is still switched into the
TinyMCE iframe rather than the default content surface). -/
structure TinyResult where
  result : Except Exn Bool
  inFrame : Bool
deriving DecidableEq, Repr

/-- The exception classes named by the `except (TimeoutException,
NoSuchElementException)` clause at line 823. -/
def catchTimeoutNse (e : Exn) : Bool :=
  e = Exn.timeout || e = Exn.noSuchElement

/-- The handler of `fill_tinymce_field_by_label` (lines 823-829) applied
to an exception `e` raised while the context flag was `inF`: if `e` is a
`TimeoutException` or `NoSuchElementException` the handler restores the
default content (itself guarded by a bare `try/except: pass`) and returns
`False`; any other exception propagates, leaving the interaction context
as it was at the raise. -/
def tinyHandle (env : TinyEnv) (e : Exn) (inF : Bool) : TinyResult :=
  if catchTimeoutNse e then
    match env.switchDefault with
    | none => { result := Except.ok false, inFrame := false }
    | some _ => { result := Except.ok false, inFrame := inF }
  else { result := Except.error e, inFrame := inF }

/-- The ordered primitive operations of the `try` suite of
`fill_tinymce_field_by_label` (lines 800-821), each paired with the
interaction context in force while it runs (`true` once
`switch_to.frame` has succeeded). -/
def tinyOps (env : TinyEnv) : List (Option Exn × Bool) :=
  [(env.labelWait, false), (env.iframeFind, false), (env.switchFrame, false),
   (env.bodyWait, true), (env.bodyClear, true), (env.bodySendKeys, true),
   (env.switchDefault, true)]

/-- Executes the `try` suite: operations run in order; the first raised
exception goes to the handler; if all succeed the method returns `True`
with the context already restored by the final `switch_to.default_content()`. -/
def tinyRun (env : TinyEnv) : List (Option Exn × Bool) → TinyResult
  | [] => { result := Except.ok true, inFrame := false }
  | (none, _) :: rest => tinyRun env rest
  | (some e, f) :: _ => tinyHandle env e f

/-- Model of `SupersetAutomator.fill_tinymce_field_by_label` (lines
789-829).  The label text and content do not influence the control flow;
they are kept as arguments to match the source signature. -/
def fill_tinymce_field_by_label (_label_text _content : String) (env : TinyEnv) : TinyResult :=
  tinyRun env (tinyOps env)

/-- All primitive operations of a TinyMCE fill either succeed or raise
only the exception classes the handler catches. -/
def onlyCatchable (env : TinyEnv) : Bool :=
  (tinyOps env).all fun p =>
    match p.1 with
    | none => true
    | some e => catchTimeoutNse e

theorem tinyHandle_result (env : TinyEnv) (e : Exn) (f : Bool) :
    (tinyHandle env e f).result =
      if catchTimeoutNse e then Except.ok false else Except.error e := by
  unfold tinyHandle
  by_cases h : catchTimeoutNse e
  · simp only [h, if_true]
    cases env.switchDefault <;> rfl
  · simp only [h]
    rfl

theorem tinyRun_error_not_catchable (env : TinyEnv) (l : List (Option Exn × Bool)) (e : Exn)
    (h : (tinyRun env l).result = Except.error e) : catchTimeoutNse e = false := by
  induction l with
  | nil => simp [tinyRun] at h
  | cons hd tl ih =>
    obtain ⟨o, f⟩ := hd
    cases o with
    | none => exact ih (by simpa [tinyRun] using h)
    | some e' =>
      have h' : (tinyHandle env e' f).result = Except.error e := h
      rw [tinyHandle_result] at h'
      by_cases hc : catchTimeoutNse e'
      · simp [hc] at h'
      · rw [if_neg hc] at h'
        cases h'
        simpa using hc

theorem tinyRun_ok_of_catchable (env : TinyEnv) (l : List (Option Exn × Bool))
    (h : ∀ p ∈ l, ∀ e, p.1 = some e → catchTimeoutNse e = true) :
    ∃ b, (tinyRun env l).result = Except.ok b := by
  induction l with
  | nil => exact ⟨true, rfl⟩
  | cons hd tl ih =>
    obtain ⟨o, f⟩ := hd
    cases o with
    | none =>
      exact ih fun p hp e he => h p (List.mem_cons_of_mem _ hp) e he
    | some e' =>
      have hc : catchTimeoutNse e' = true := h (some e', f) (List.mem_cons_self _ _) e' rfl
      refine ⟨false, ?_⟩
      show (tinyHandle env e' f).result = Except.ok false
      rw [tinyHandle_result, if_pos hc]

theorem tinyRun_ok_true_restores (env : TinyEnv) (l : List (Option Exn × Bool))
    (h : (tinyRun env l).result = Except.ok true) : (tinyRun env l).inFrame = false := by
  induction l with
  | nil => rfl
  | cons hd tl ih =>
    obtain ⟨o, f⟩ := hd
    cases o with
    | none => exact ih h
    | some e' =>
      have h' : (tinyHandle env e' f).result = Except.ok true := h
      rw [tinyHandle_result] at h'
      by_cases hc : catchTimeoutNse e'
      · simp [hc] at h'
      · simp [hc] at h'

theorem tinyRun_ok_restores_of_switch (env : TinyEnv) (l : List (Option Exn × Bool))
    (hsd : env.switchDefault = none) (b : Bool)
    (h : (tinyRun env l).result = Except.ok b) : (tinyRun env l).inFrame = false := by
  induction l with
  | nil => rfl
  | cons hd tl ih =>
    obtain ⟨o, f⟩ := hd
    cases o with
    | none => exact ih h
    | some e' =>
      show (tinyHandle env e' f).inFrame = false
      have h' : (tinyHandle env e' f).result = Except.ok b := h
      rw [tinyHandle_result] at h'
      by_cases hc : catchTimeoutNse e'
      · unfold tinyHandle
        rw [if_pos hc, hsd]
      · rw [if_neg hc] at h'
        cases h'

/-- Counterexample environment for C3: every operation succeeds except
`body.clear()`, which raises a `WebDriverException` that is not a
`TimeoutException` or `NoSuchElementException` (for example an
`ElementNotInteractableException`). -/
def tinyEnvUncaught : TinyEnv :=
  { labelWait := none, iframeFind := none, switchFrame := none, bodyWait := none,
    bodyClear := some Exn.webDriver, bodySendKeys := none, switchDefault := none }

/-- C3 counterexample: `fill_tinymce_field_by_label` is a stage function
that DOES propagate an exception to its caller — when `body.clear()`
raises a `WebDriverException` that is neither a `TimeoutException` nor a
`NoSuchElementException`, the call exits with that exception instead of
returning a boolean, refuting the claim that every stage function never
propagates an exception of any kind. -/
theorem fill_tinymce_propagates_counterexample :
    (fill_tinymce_field_by_label "Job Description" "text" tinyEnvUncaught).result =
      Except.error Exn.webDriver := by rfl

/-- C3 (amended): `fill_tinymce_field_by_label` catches only
`TimeoutException` and `NoSuchElementException`, converting them to
`False`; consequently any exception that crosses its boundary is of some
other kind, and whenever the underlying operations raise only those two
catchable kinds the call returns a boolean. -/
theorem fill_tinymce_exception_policy (label_text content : String) (env : TinyEnv) :
    (∀ e, (fill_tinymce_field_by_label label_text content env).result = Except.error e →
        e ≠ Exn.timeout ∧ e ≠ Exn.noSuchElement) ∧
    (onlyCatchable env = true →
        ∃ b, (fill_tinymce_field_by_label label_text content env).result = Except.ok b) := by
  constructor
  · intro e he
    have h := tinyRun_error_not_catchable env (tinyOps env) e he
    unfold catchTimeoutNse at h
    simp only [Bool.or_eq_false_iff, decide_eq_false_iff_not] at h
    exact h
  · intro h
    refine tinyRun_ok_of_catchable env (tinyOps env) ?_
    intro p hp e he
    have := List.all_eq_true.mp h p hp
    rw [he] at this
    exact this

/-- Closed witness for the amended C3 theorem at a concrete environment
whose only failure is a timeout waiting for the label. -/
theorem fill_tinymce_exception_policy_witness :
    onlyCatchable
        { labelWait := some Exn.timeout, iframeFind := none, switchFrame := none,
          bodyWait := none, bodyClear := none, bodySendKeys := none,
          switchDefault := none } = true ∧
    (∃ b, (fill_tinymce_field_by_label "Job Description" "text"
        { labelWait := some Exn.timeout, iframeFind := none, switchFrame := none,
          bodyWait := none, bodyClear := none, bodySendKeys := none,
          switchDefault := none }).result = Except.ok b) :=
  ⟨by decide,
   (fill_tinymce_exception_policy "Job Description" "text"
      { labelWait := some Exn.timeout, iframeFind := none, switchFrame := none,
        bodyWait := none, bodyClear := none, bodySendKeys := none,
        switchDefault := none }).2 (by decide)⟩

/-- Counterexample environment for C4: the switch into the iframe
succeeds, then `body.send_keys` raises an uncatchable
`WebDriverException`. -/
def tinyEnvStuckInFrame : TinyEnv :=
  { labelWait := none, iframeFind := none, switchFrame := none, bodyWait := none,
    bodyClear := none, bodySendKeys := some Exn.webDriver, switchDefault := none }

/-- C4 counterexample: when an exception other than
`TimeoutException`/`NoSuchElementException` is raised after the switch
into the TinyMCE iframe, `fill_tinymce_field_by_label` exits with the
exception while the driver is still switched into the iframe — the
interaction context is NOT restored to the default content surface on
that exit path. -/
theorem fill_tinymce_context_counterexample :
    (fill_tinymce_field_by_label "Salary break-up / Additional Compensation" "text"
        tinyEnvStuckInFrame).inFrame = true ∧
    (fill_tinymce_field_by_label "Salary break-up / Additional Compensation" "text"
        tinyEnvStuckInFrame).result = Except.error Exn.webDriver := by
  exact ⟨rfl, rfl⟩

/-- C4 (amended): `fill_tinymce_field_by_label` restores the interaction
context to the default content surface on every path on which it RETURNS
(rather than raises), provided the restoring `switch_to.default_content`
operation itself succeeds; in particular the context is always restored
when the call reports success.  When any exception other than
`TimeoutException`/`NoSuchElementException` is raised after the switch
into the iframe, the call exits with the context still inside the
iframe. -/
theorem fill_tinymce_context_restoration (label_text content : String) (env : TinyEnv) :
    ((fill_tinymce_field_by_label label_text content env).result = Except.ok true →
        (fill_tinymce_field_by_label label_text content env).inFrame = false) ∧
    (∀ b, env.switchDefault = none →
        (fill_tinymce_field_by_label label_text content env).result = Except.ok b →
        (fill_tinymce_field_by_label label_text content env).inFrame = false) := by
  constructor
  · intro h
    exact tinyRun_ok_true_restores env (tinyOps env) h
  · intro b hsd h
    exact tinyRun_ok_restores_of_switch env (tinyOps env) hsd b h

/-- Closed witness for the amended C4 theorem: a fully successful fill
returns `True` with the context back on the default surface, and a fill
that fails with a caught timeout (restore succeeding) also exits on the
default surface. -/
theorem fill_tinymce_context_restoration_witness :
    ((fill_tinymce_field_by_label "Job Description" "text"
        { labelWait := none, iframeFind := none, switchFrame := none, bodyWait := none,
          bodyClear := none, bodySendKeys := none, switchDefault := none }).result =
      Except.ok true) ∧
    ((fill_tinymce_field_by_label "Job Description" "text"
        { labelWait := none, iframeFind := none, switchFrame := none, bodyWait := none,
          bodyClear := none, bodySendKeys := none, switchDefault := none }).inFrame = false) :=
  ⟨by decide,
   (fill_tinymce_context_restoration "Job Description" "text"
      { labelWait := none, iframeFind := none, switchFrame := none, bodyWait := none,
        bodyClear := none, bodySendKeys := none, switchDefault := none }).1 (by decide)⟩

/-- Boolean results of the three sub-calls `fill_company_data` can make
(lines 451-478): the first `select_company`, `add_new_company`, and the
re-issued `select_company`.  Both sub-functions catch every exception
internally and return a boolean, so their outcomes are plain `Bool`s. -/
structure CompanyEnv where
  firstSelect : Bool
  addCompany : Bool
  reSelect : Bool
deriving DecidableEq, Repr

/-- The observable sub-calls of the company-resolve step. -/
inductive CompanyEvent
  | select
  | createCompany
deriving DecidableEq, Repr

/-- Model of `SupersetAutomator.fill_company_data` (lines 451-478):
try the selection; if it fails, run `add_new_company`; if that succeeds,
re-issue `select_company` — whose result the source IGNORES — and return
`True`; if the creation fails, return `False`.  The company name does not
influence the control flow; it is kept to match the source signature.
Returns the boolean result paired with the ordered list of sub-calls
invoked. -/
def fill_company_data (_company_name : String) (env : CompanyEnv) :
    Bool × List CompanyEvent :=
  if env.firstSelect then (true, [CompanyEvent.select])
  else if env.addCompany then
    (true, [CompanyEvent.select, CompanyEvent.createCompany, CompanyEvent.select])
  else (false, [CompanyEvent.select, CompanyEvent.createCompany])

/-- Whether the company is actually selected at the end of the resolve
step: either the first selection matched, or the creation succeeded and
the re-issued selection matched. -/
def companySelectedAfter (env : CompanyEnv) : Bool :=
  env.firstSelect || (env.addCompany && env.reSelect)

/-- C6 counterexample: when the first selection finds no match, creation
succeeds, but the re-issued selection fails, `fill_company_data` still
returns `True` although the company did NOT end up selected — refuting
the part of the claim that the stage reports success only when the
company ends up selected. -/
theorem fill_company_data_counterexample :
    (fill_company_data "Acme Robotics" ⟨false, true, false⟩).1 = true ∧
    companySelectedAfter ⟨false, true, false⟩ = false := by decide

/-- C6 (amended): the create-company sub-flow is invoked exactly once and
only when the first selection reports no match; after a successful
creation the selection is re-attempted exactly once; the sub-flow is
never invoked twice within one resolve step; but the stage reports
success whenever the first selection succeeded OR the creation succeeded,
the result of the re-issued selection being ignored — success therefore
does not guarantee the company ended up selected. -/
theorem fill_company_data_resolve (company_name : String) (env : CompanyEnv) :
    ((fill_company_data company_name env).2.count CompanyEvent.createCompany =
      if env.firstSelect then 0 else 1) ∧
    ((fill_company_data company_name env).2.count CompanyEvent.createCompany ≤ 1) ∧
    (env.firstSelect = false → env.addCompany = true →
      (fill_company_data company_name env).2 =
        [CompanyEvent.select, CompanyEvent.createCompany, CompanyEvent.select]) ∧
    ((fill_company_data company_name env).1 = true ↔
      (env.firstSelect = true ∨ env.addCompany = true)) := by
  rcases env with ⟨f, a, r⟩
  cases f <;> cases a <;> cases r <;> simp [fill_company_data]

/-- Closed witness for the amended C6 theorem at the environment where
the first selection fails and creation succeeds. -/
theorem fill_company_data_resolve_witness :
    ((⟨false, true, true⟩ : CompanyEnv).firstSelect = false) ∧
    ((⟨false, true, true⟩ : CompanyEnv).addCompany = true) ∧
    (fill_company_data "Acme Robotics" ⟨false, true, true⟩).2 =
      [CompanyEvent.select, CompanyEvent.createCompany, CompanyEvent.select] :=
  ⟨by decide, by decide,
   (fill_company_data_resolve "Acme Robotics" ⟨false, true, true⟩).2.2.1
     (by decide) (by decide)⟩

/-- Primitive-operation outcomes for one call of
`SupersetAutomator.add_ctc_details` (lines 700-758), in source order:
the wait for the "Specify Range" control, the scroll-into-view script,
the native click on the control, the forced JS click used as fallback on
interception, the scroll-to-top script, the two `find_element` lookups
for the min and max fields, and the two scripts executed by `js_input`
for the min and max values. -/
structure CtcEnv where
  waitSpecify : Option Exn
  scrollIntoView : Option Exn
  clickSpecify : Option Exn
  jsClickSpecify : Option Exn
  scrollTop : Option Exn
  findMin : Option Exn
  findMax : Option Exn
  jsSetMin : Option Exn
  jsSetMax : Option Exn
deriving DecidableEq, Repr

/-- The two numeric sub-fields of the compensation widget. -/
inductive CtcField
  | ctcMin
  | ctcMax
deriving DecidableEq, Repr

/-- Observable UI mutations of the CTC stage: the click that switches the
widget into range mode, and a successful forced assignment (which writes
exactly `value` and dispatches the framework input event). -/
inductive CtcEvent
  | clickSpecifyRange
  | setValue (field : CtcField) (value : Int)
deriving DecidableEq, Repr

/-- State of the compensation widget: whether range mode was engaged,
the values currently held by the two fields (`none` = never written),
and the ordered mutation events. -/
structure CtcState where
  rangeMode : Bool
  minVal : Option Int
  maxVal : Option Int
  events : List CtcEvent
deriving DecidableEq, Repr

/-- Widget state before the CTC stage touches it. -/
def initCtcState : CtcState :=
  { rangeMode := false, minVal := none, maxVal := none, events := [] }

/-- Model of `ElementInteraction.js_input` (lines 103-114) applied to a
CTC field: on script success the field is assigned exactly `value` and
the framework's input event is dispatched; on script failure the
exception is caught inside `js_input`, which returns `False` leaving the
field untouched.  `js_input` never raises. -/
def js_input (outcome : Option Exn) (f : CtcField) (value : Int) (st : CtcState) :
    Bool × CtcState :=
  match outcome with
  | none =>
    match f with
    | CtcField.ctcMin =>
      (true, { st with minVal := some value,
                       events := st.events ++ [CtcEvent.setValue f value] })
    | CtcField.ctcMax =>
      (true, { st with maxVal := some value,
                       events := st.events ++ [CtcEvent.setValue f value] })
  | some _ => (false, st)

/-- The guarded "Specify Range" click of `add_ctc_details` (lines
715-721): native click, with a forced JS click fallback exactly on
`ElementClickInterceptedException`.  Returns `none` if the control ended
up clicked, `some e` if an exception escapes to the outer handlers. -/
def ctcClickRaise (env : CtcEnv) : Option Exn :=
  match env.clickSpecify with
  | none => none
  | some e => if e = Exn.interceptedClick then env.jsClickSpecify else some e

/-- Model of `SupersetAutomator.add_ctc_details` (lines 700-758): wait
for and click "Specify Range" (engaging range mode), scroll, locate the
two fields, then set min and then max through `js_input` — whose boolean
results the source DISCARDS — and return `True`.  Every exception raised
by the located operations is caught by one of the outer handlers
(`TimeoutException`, `NoSuchElementException`,
`ElementClickInterceptedException`, `WebDriverException`, `Exception`)
and converted to `False`, so the method never raises. -/
def add_ctc_details (env : CtcEnv) (min_salary max_salary : Int) : Bool × CtcState :=
  match firstRaise [env.waitSpecify, env.scrollIntoView] with
  | some _ => (false, initCtcState)
  | none =>
    match ctcClickRaise env with
    | some _ => (false, initCtcState)
    | none =>
      let st1 : CtcState :=
        { initCtcState with rangeMode := true, events := [CtcEvent.clickSpecifyRange] }
      match firstRaise [env.scrollTop, env.findMin, env.findMax] with
      | some _ => (false, st1)
      | none =>
        let st2 := (js_input env.jsSetMin CtcField.ctcMin min_salary st1).2
        let st3 := (js_input env.jsSetMax CtcField.ctcMax max_salary st2).2
        (true, st3)

/-- The conditions under which `add_ctc_details` reaches its final
`return True`: every wait, scroll, click and locate step succeeded.  The
outcomes of the two `js_input` assignments are deliberately absent. -/
def ctcPreOk (env : CtcEnv) : Bool :=
  (firstRaise [env.waitSpecify, env.scrollIntoView]).isNone &&
  (ctcClickRaise env).isNone &&
  (firstRaise [env.scrollTop, env.findMin, env.findMax]).isNone

theorem add_ctc_details_fst (env : CtcEnv) (m M : Int) :
    (add_ctc_details env m M).1 = ctcPreOk env := by
  unfold add_ctc_details ctcPreOk
  rcases h1 : firstRaise [env.waitSpecify, env.scrollIntoView] with _ | e1
  · rcases h2 : ctcClickRaise env with _ | e2
    · rcases h3 : firstRaise [env.scrollTop, env.findMin, env.findMax] with _ | e3 <;> simp
    · simp
  · simp

theorem add_ctc_details_of_preOk (env : CtcEnv) (m M : Int) (h : ctcPreOk env = true) :
    add_ctc_details env m M =
      (true,
        (js_input env.jsSetMax CtcField.ctcMax M
          (js_input env.jsSetMin CtcField.ctcMin m
            { initCtcState with rangeMode := true,
                                events := [CtcEvent.clickSpecifyRange] }).2).2) := by
  unfold ctcPreOk at h
  simp only [Bool.and_eq_true, Option.isNone_iff_eq_none] at h
  obtain ⟨⟨h1, h2⟩, h3⟩ := h
  unfold add_ctc_details
  rw [h1, h2, h3]

/-- Counterexample environment for C7: every wait/click/locate step
succeeds, but the forced JS assignment for the minimum field fails (the
script raises inside `js_input`, which swallows it and returns `False`). -/
def ctcEnvJsFails : CtcEnv :=
  { waitSpecify := none, scrollIntoView := none, clickSpecify := none,
    jsClickSpecify := none, scrollTop := none, findMin := none, findMax := none,
    jsSetMin := some Exn.webDriver, jsSetMax := none }

/-- C7 counterexample: `add_ctc_details` returns `True` even though the
minimum-salary field never received the written value (the `js_input`
result is discarded by the source), refuting the part of the claim that
the stage reports success only when the fields hold the exact values
written. -/
theorem add_ctc_details_counterexample :
    (add_ctc_details ctcEnvJsFails 1200000 1800000).1 = true ∧
    (add_ctc_details ctcEnvJsFails 1200000 1800000).2.minVal = none := by
  exact ⟨rfl, rfl⟩

/-- C7 (amended): `add_ctc_details` first clicks the control that
switches the compensation widget into range mode and only then writes
the minimum and then the maximum value via the forced JS assignment path
(`js_input`), which on success sets the field to exactly the given value
and dispatches the framework's input event; the stage however reports
success exactly when the wait/scroll/click/locate steps succeed,
discarding the results of the two assignments, so success does not
guarantee that the fields hold the values written. -/
theorem add_ctc_details_contract (env : CtcEnv) (m M : Int) :
    ((add_ctc_details env m M).1 = ctcPreOk env) ∧
    (ctcPreOk env = true →
      (add_ctc_details env m M).2.rangeMode = true ∧
      (add_ctc_details env m M).2.events.head? = some CtcEvent.clickSpecifyRange) ∧
    (ctcPreOk env = true → env.jsSetMin = none →
      (add_ctc_details env m M).2.minVal = some m) ∧
    (ctcPreOk env = true → env.jsSetMax = none →
      (add_ctc_details env m M).2.maxVal = some M) ∧
    (ctcPreOk env = true → env.jsSetMin = none → env.jsSetMax = none →
      (add_ctc_details env m M).2.events =
        [CtcEvent.clickSpecifyRange, CtcEvent.setValue CtcField.ctcMin m,
         CtcEvent.setValue CtcField.ctcMax M]) := by
  refine ⟨add_ctc_details_fst env m M, ?_, ?_, ?_, ?_⟩
  · intro h
    rw [add_ctc_details_of_preOk env m M h]
    rcases hm : env.jsSetMin with _ | em <;> rcases hM : env.jsSetMax with _ | eM <;>
      simp [js_input]
  · intro h hm
    rw [add_ctc_details_of_preOk env m M h]
    rcases hM : env.jsSetMax with _ | eM <;> simp [hm, js_input]
  · intro h hM
    rw [add_ctc_details_of_preOk env m M h]
    rcases hm : env.jsSetMin with _ | em <;> simp [hm, hM, js_input]
  · intro h hm hM
    rw [add_ctc_details_of_preOk env m M h]
    simp [hm, hM, js_input]

/-- Closed witness for the amended C7 theorem at the all-success
environment: range mode engaged, both fields hold exactly the written
values, and the mutation events occur in the claimed order. -/
theorem add_ctc_details_contract_witness :
    ctcPreOk
        { waitSpecify := none, scrollIntoView := none, clickSpecify := none,
          jsClickSpecify := none, scrollTop := none, findMin := none, findMax := none,
          jsSetMin := none, jsSetMax := none } = true ∧
    (add_ctc_details
        { waitSpecify := none, scrollIntoView := none, clickSpecify := none,
          jsClickSpecify := none, scrollTop := none, findMin := none, findMax := none,
          jsSetMin := none, jsSetMax := none } 1200000 1800000).2.events =
      [CtcEvent.clickSpecifyRange, CtcEvent.setValue CtcField.ctcMin 1200000,
       CtcEvent.setValue CtcField.ctcMax 1800000] :=
  ⟨by decide,
   (add_ctc_details_contract
      { waitSpecify := none, scrollIntoView := none, clickSpecify := none,
        jsClickSpecify := none, scrollTop := none, findMin := none, findMax := none,
        jsSetMin := none, jsSetMax := none } 1200000 1800000).2.2.2.2
     (by decide) (by decide) (by decide)⟩

/-- Model of the `JobData` dataclass (lines 52-65), with the same field
defaults. -/
structure JobData where
  company_name : String
  job_title : String
  location : String := "Pune"
  min_salary : Int := 1000000
  max_salary : Int := 1500000
  job_description : String := ""
  job_function : String := ""
  salary_breakup : String := ""
  posted_by : String := ""
  timestamp : String := ""
  is_ai_generated : Bool := false
deriving DecidableEq, Repr

/-- The built-in record `run` substitutes when called with `job_data is
None` (lines 1612-1616). -/
def defaultRunJobData : JobData :=
  { company_name := "Mercedes Benz", job_title := "Full Stack Developer" }

/-- The stage functions `run` (lines 1602-1751) invokes, in source
order. -/
inductive StageName
  | setupDriver
  | login
  | placementSelection
  | companyData
  | jobTitle
  | profileSource
  | jobLocation
  | positionType
  | jobFunction
  | category
  | ctcDetails
  | equityCheckbox
  | salaryBreakup
  | jobDescription
  | createAndConfirm
  | applicableCourses
  | eligibilityCriteria
  | hiringWorkflow
deriving DecidableEq, Repr

/-- Outcome of one stage-function call as `run` observes it: it returned
`True`, returned `False`, or let an exception escape. -/
inductive StageOutcome
  | success
  | failure
  | raised (e : Exn)
deriving DecidableEq, Repr

/-- Environment for one call of `SupersetAutomator.run`: the outcome of
`setup_driver` (which returns `None` or raises) and, per stage, either an
opaque outcome (for the stages whose internals no claim inspects) or the
primitive-operation environment of the detailed model of that stage. -/
structure RunEnv where
  setupOutcome : Option Exn
  loginOutcome : StageOutcome
  placementOutcome : StageOutcome
  companyEnv : CompanyEnv
  titleOutcome : StageOutcome
  sourceOutcome : StageOutcome
  locationOutcome : StageOutcome
  positionTypeOutcome : StageOutcome
  jobFunctionOutcome : StageOutcome
  categoryOutcome : StageOutcome
  ctcEnv : CtcEnv
  equityOutcome : StageOutcome
  breakupEnv : TinyEnv
  descriptionEnv : TinyEnv
  createConfirmOutcome : StageOutcome
  coursesOutcome : StageOutcome
  eligibilityOutcome : StageOutcome
  workflowOutcome : StageOutcome
deriving DecidableEq, Repr

/-- A boolean-returning stage reports success iff it returned `True`. -/
def boolOutcome (b : Bool) : StageOutcome :=
  if b then StageOutcome.success else StageOutcome.failure

/-- How `run` observes a `fill_tinymce_field_by_label` call: boolean
return or escaped exception. -/
def tinyStageOutcome (r : TinyResult) : StageOutcome :=
  match r.result with
  | Except.ok true => StageOutcome.success
  | Except.ok false => StageOutcome.failure
  | Except.error e => StageOutcome.raised e

/-- The ordered list of stage-function calls `run` makes for job record
`jd`, paired with each call's outcome (lines 1620-1736).  The entries for
the company, CTC and TinyMCE stages are computed by the detailed models
above; `setup_driver` returns `None`, so its entry can only be `success`
or `raised`. -/
def stageOutcomes (env : RunEnv) (jd : JobData) : List (StageName × StageOutcome) :=
  [(StageName.setupDriver,
      match env.setupOutcome with
      | none => StageOutcome.success
      | some e => StageOutcome.raised e),
   (StageName.login, env.loginOutcome),
   (StageName.placementSelection, env.placementOutcome),
   (StageName.companyData, boolOutcome (fill_company_data jd.company_name env.companyEnv).1),
   (StageName.jobTitle, env.titleOutcome),
   (StageName.profileSource, env.sourceOutcome),
   (StageName.jobLocation, env.locationOutcome),
   (StageName.positionType, env.positionTypeOutcome),
   (StageName.jobFunction, env.jobFunctionOutcome),
   (StageName.category, env.categoryOutcome),
   (StageName.ctcDetails,
      boolOutcome (add_ctc_details env.ctcEnv jd.min_salary jd.max_salary).1),
   (StageName.equityCheckbox, env.equityOutcome),
   (StageName.salaryBreakup,
      tinyStageOutcome (fill_tinymce_field_by_label
        "Salary break-up / Additional Compensation" jd.salary_breakup env.breakupEnv)),
   (StageName.jobDescription,
      tinyStageOutcome (fill_tinymce_field_by_label
        "Job Description" jd.job_description env.descriptionEnv)),
   (StageName.createAndConfirm, env.createConfirmOutcome),
   (StageName.applicableCourses, env.coursesOutcome),
   (StageName.eligibilityCriteria, env.eligibilityOutcome),
   (StageName.hiringWorkflow, env.workflowOutcome)]

/-- The stage order of `run`, as a constant list. -/
def stageOrder : List StageName :=
  [StageName.setupDriver, StageName.login, StageName.placementSelection,
   StageName.companyData, StageName.jobTitle, StageName.profileSource,
   StageName.jobLocation, StageName.positionType, StageName.jobFunction,
   StageName.category, StageName.ctcDetails, StageName.equityCheckbox,
   StageName.salaryBreakup, StageName.jobDescription, StageName.createAndConfirm,
   StageName.applicableCourses, StageName.eligibilityCriteria,
   StageName.hiringWorkflow]

/-- The `try` suite of `run`: invoke each stage in order; a `False`
return triggers the early `return False`; an escaped exception aborts the
suite (to be caught by the `except Exception` handler).  Returns the
suite's result together with the list of stages actually invoked. -/
def runBody : List (StageName × StageOutcome) → Except Exn Bool × List StageName
  | [] => (Except.ok true, [])
  | (n, o) :: rest =>
    match o with
    | StageOutcome.success => ((runBody rest).1, n :: (runBody rest).2)
    | StageOutcome.failure => (Except.ok false, [n])
    | StageOutcome.raised e => (Except.error e, [n])

/-- The browser session owned by one run: whether `self.driver` was
assigned, and whether a live browser remains open. -/
structure Session where
  driverPresent : Bool
  isOpen : Bool
deriving DecidableEq, Repr

/-- Model of `SupersetAutomator.teardown` (lines 1596-1600): quit the
browser iff a driver is present. -/
def teardown (s : Session) : Session :=
  if s.driverPresent then { s with isOpen := false } else s

/-- Session state right after the `setup_driver` call: a successful setup
assigns the driver and opens a browser; a raising setup leaves
`self.driver = None` with no browser open. -/
def sessionAfterSetup (env : RunEnv) : Session :=
  match env.setupOutcome with
  | none => { driverPresent := true, isOpen := true }
  | some _ => { driverPresent := false, isOpen := false }

/-- Observable outcome of one `run` call: the returned boolean, the
stages invoked in order, how many times `teardown` ran, and whether a
browser session remains open afterwards. -/
structure RunOut where
  ret : Bool
  trace : List StageName
  teardownCalls : Nat
  sessionOpenAtEnd : Bool
deriving DecidableEq, Repr

/-- Model of `SupersetAutomator.run` (lines 1602-1751): substitute the
default job record when given `None`, execute the stage sequence inside
`try` (early `return False` on the first stage that fails), catch any
escaped `Exception` as overall failure, and run `teardown` in the
`finally` block — hence exactly once on every exit path. -/
def run (env : RunEnv) (jd? : Option JobData) : RunOut :=
  let jd := jd?.getD defaultRunJobData
  let body := runBody (stageOutcomes env jd)
  { ret :=
      match body.1 with
      | Except.ok b => b
      | Except.error _ => false,
    trace := body.2,
    teardownCalls := 1,
    sessionOpenAtEnd := (teardown (sessionAfterSetup env)).isOpen }

theorem stageOutcomes_map_fst (env : RunEnv) (jd : JobData) :
    (stageOutcomes env jd).map Prod.fst = stageOrder := rfl

theorem runBody_ok_true_iff (l : List (StageName × StageOutcome)) :
    (runBody l).1 = Except.ok true ↔ ∀ p ∈ l, p.2 = StageOutcome.success := by
  induction l with
  | nil => simp [runBody]
  | cons hd tl ih =>
    obtain ⟨n, o⟩ := hd
    cases o with
    | success =>
      simpa [runBody] using ih
    | failure =>
      simp [runBody]
    | raised e =>
      simp [runBody]

theorem runBody_trace_take (l : List (StageName × StageOutcome)) :
    ∃ k, (runBody l).2 = (l.map Prod.fst).take k := by
  induction l with
  | nil => exact ⟨0, rfl⟩
  | cons hd tl ih =>
    obtain ⟨n, o⟩ := hd
    cases o with
    | success =>
      obtain ⟨k, hk⟩ := ih
      exact ⟨k + 1, by simp [runBody, hk]⟩
    | failure => exact ⟨1, by simp [runBody]⟩
    | raised e => exact ⟨1, by simp [runBody]⟩

/-- The value `runBody` produces at the first non-success stage. -/
def failExcept : StageOutcome → Except Exn Bool
  | StageOutcome.success => Except.ok true
  | StageOutcome.failure => Except.ok false
  | StageOutcome.raised e => Except.error e

theorem runBody_failfast (l₁ : List (StageName × StageOutcome)) (n : StageName)
    (o : StageOutcome) (l₂ : List (StageName × StageOutcome))
    (h1 : ∀ p ∈ l₁, p.2 = StageOutcome.success) (h2 : o ≠ StageOutcome.success) :
    runBody (l₁ ++ (n, o) :: l₂) = (failExcept o, l₁.map Prod.fst ++ [n]) := by
  induction l₁ with
  | nil =>
    cases o with
    | success => exact absurd rfl h2
    | failure => rfl
    | raised e => rfl
  | cons hd tl ih =>
    obtain ⟨m, p⟩ := hd
    have hp : p = StageOutcome.success := h1 (m, p) (List.mem_cons_self _ _)
    subst hp
    have ih' := ih fun q hq => h1 q (List.mem_cons_of_mem _ hq)
    show ((runBody (tl ++ (n, o) :: l₂)).1, m :: (runBody (tl ++ (n, o) :: l₂)).2) = _
    rw [ih']
    rfl

theorem run_ret_eq (env : RunEnv) (jd? : Option JobData) :
    (run env jd?).ret = true ↔
      (runBody (stageOutcomes env (jd?.getD defaultRunJobData))).1 = Except.ok true := by
  unfold run
  rcases h : (runBody (stageOutcomes env (jd?.getD defaultRunJobData))).1 with b | e
  · simp [h]
  · simp [h]

/-- C1: `run` returns `true` iff every stage function it invokes (driver
setup, login, placement selection, company data, job title, profile
source, location, position type, job function, category, CTC details,
equity checkbox, salary break-up, job description, create-and-confirm,
applicable courses, eligibility criteria, hiring workflow) reports
success, invoked in exactly that order; on the first stage that fails,
`run` returns `false`, no later stage function is invoked, and no stage
is invoked a second time. -/
theorem run_orchestrator_contract (env : RunEnv) (jd? : Option JobData) :
    ((run env jd?).ret = true ↔
      ∀ p ∈ stageOutcomes env (jd?.getD defaultRunJobData),
        p.2 = StageOutcome.success) ∧
    (∃ k, (run env jd?).trace = stageOrder.take k) ∧
    (run env jd?).trace.Nodup ∧
    (∀ l₁ n o l₂,
      stageOutcomes env (jd?.getD defaultRunJobData) = l₁ ++ (n, o) :: l₂ →
      (∀ p ∈ l₁, p.2 = StageOutcome.success) → o ≠ StageOutcome.success →
      (run env jd?).ret = false ∧
      (run env jd?).trace = l₁.map Prod.fst ++ [n]) := by
  have htr : (run env jd?).trace =
      (runBody (stageOutcomes env (jd?.getD defaultRunJobData))).2 := rfl
  refine ⟨?_, ?_, ?_, ?_⟩
  · rw [run_ret_eq]
    exact runBody_ok_true_iff _
  · obtain ⟨k, hk⟩ := runBody_trace_take (stageOutcomes env (jd?.getD defaultRunJobData))
    refine ⟨k, ?_⟩
    rw [htr, hk, stageOutcomes_map_fst]
  · obtain ⟨k, hk⟩ := runBody_trace_take (stageOutcomes env (jd?.getD defaultRunJobData))
    rw [htr, hk, stageOutcomes_map_fst]
    exact List.Nodup.sublist (List.take_sublist _ _) (by decide)
  · intro l₁ n o l₂ hdec h1 h2
    have hb := runBody_failfast l₁ n o l₂ h1 h2
    rw [← hdec] at hb
    constructor
    · have : (run env jd?).ret = true ↔ _ := run_ret_eq env jd?
      rw [hb] at this
      cases o with
      | success => exact absurd rfl h2
      | failure =>
        cases hret : (run env jd?).ret
        · rfl
        · exfalso
          have h3 := this.mp hret
          simp [failExcept] at h3
      | raised e =>
        cases hret : (run env jd?).ret
        · rfl
        · exfalso
          have h3 := this.mp hret
          simp [failExcept] at h3
    · rw [htr, hb]

/-- An all-success TinyMCE environment. -/
def tinyEnvGood : TinyEnv :=
  { labelWait := none, iframeFind := none, switchFrame := none, bodyWait := none,
    bodyClear := none, bodySendKeys := none, switchDefault := none }

/-- An all-success CTC environment. -/
def ctcEnvGood : CtcEnv :=
  { waitSpecify := none, scrollIntoView := none, clickSpecify := none,
    jsClickSpecify := none, scrollTop := none, findMin := none, findMax := none,
    jsSetMin := none, jsSetMax := none }

/-- A company environment in which the first selection succeeds. -/
def companyEnvGood : CompanyEnv := ⟨true, true, true⟩

/-- A run environment in which every stage succeeds. -/
def envAllGood : RunEnv :=
  { setupOutcome := none, loginOutcome := StageOutcome.success,
    placementOutcome := StageOutcome.success, companyEnv := companyEnvGood,
    titleOutcome := StageOutcome.success, sourceOutcome := StageOutcome.success,
    locationOutcome := StageOutcome.success, positionTypeOutcome := StageOutcome.success,
    jobFunctionOutcome := StageOutcome.success, categoryOutcome := StageOutcome.success,
    ctcEnv := ctcEnvGood, equityOutcome := StageOutcome.success,
    breakupEnv := tinyEnvGood, descriptionEnv := tinyEnvGood,
    createConfirmOutcome := StageOutcome.success, coursesOutcome := StageOutcome.success,
    eligibilityOutcome := StageOutcome.success, workflowOutcome := StageOutcome.success }

/-- The all-success environment with only the login stage failing. -/
def envLoginFails : RunEnv := { envAllGood with loginOutcome := StageOutcome.failure }

/-- The stage entries following the login entry under `envLoginFails`. -/
def afterLoginStages : List (StageName × StageOutcome) :=
  [(StageName.placementSelection, StageOutcome.success),
   (StageName.companyData, StageOutcome.success),
   (StageName.jobTitle, StageOutcome.success),
   (StageName.profileSource, StageOutcome.success),
   (StageName.jobLocation, StageOutcome.success),
   (StageName.positionType, StageOutcome.success),
   (StageName.jobFunction, StageOutcome.success),
   (StageName.category, StageOutcome.success),
   (StageName.ctcDetails, StageOutcome.success),
   (StageName.equityCheckbox, StageOutcome.success),
   (StageName.salaryBreakup, StageOutcome.success),
   (StageName.jobDescription, StageOutcome.success),
   (StageName.createAndConfirm, StageOutcome.success),
   (StageName.applicableCourses, StageOutcome.success),
   (StageName.eligibilityCriteria, StageOutcome.success),
   (StageName.hiringWorkflow, StageOutcome.success)]

/-- Closed witness for the C1 theorem: with every stage succeeding except
login, the failing-stage decomposition hypotheses hold concretely and
`run` returns `false` having invoked exactly driver setup and login. -/
theorem run_orchestrator_contract_witness :
    stageOutcomes envLoginFails (Option.getD none defaultRunJobData) =
      [(StageName.setupDriver, StageOutcome.success)] ++
        (StageName.login, StageOutcome.failure) :: afterLoginStages ∧
    (∀ p ∈ [(StageName.setupDriver, StageOutcome.success)],
        p.2 = StageOutcome.success) ∧
    StageOutcome.failure ≠ StageOutcome.success ∧
    ((run envLoginFails none).ret = false ∧
      (run envLoginFails none).trace = [StageName.setupDriver, StageName.login]) :=
  ⟨by decide, by decide, by decide,
   (run_orchestrator_contract envLoginFails none).2.2.2
     [(StageName.setupDriver, StageOutcome.success)]
     StageName.login StageOutcome.failure afterLoginStages
     (by decide) (by decide) (by decide)⟩

/-- C2: on every exit path of `run` — success, a stage returning `False`
(including the early returns after login or placement-selection failure),
or an exception escaping a stage — the `finally` block executes
`teardown` exactly once, and no browser session remains open afterwards. -/
theorem run_teardown_exactly_once (env : RunEnv) (jd? : Option JobData) :
    (run env jd?).teardownCalls = 1 ∧ (run env jd?).sessionOpenAtEnd = false := by
  refine ⟨rfl, ?_⟩
  show (teardown (sessionAfterSetup env)).isOpen = false
  unfold teardown sessionAfterSetup
  cases env.setupOutcome <;> simp

/-- C10: calling `run` with no job record substitutes the built-in
default record — company "Mercedes Benz", job title "Full Stack
Developer", and the dataclass defaults (location "Pune", minimum salary
1000000, maximum salary 1500000, empty description and break-up) — and
proceeds with a full workflow run using those values (here: over an
all-success environment the defaulted run completes and returns `true`). -/
theorem run_none_uses_default_job (env : RunEnv) :
    run env none = run env (some defaultRunJobData) ∧
    defaultRunJobData =
      { company_name := "Mercedes Benz", job_title := "Full Stack Developer",
        location := "Pune", min_salary := 1000000, max_salary := 1500000,
        job_description := "", job_function := "", salary_breakup := "",
        posted_by := "", timestamp := "", is_ai_generated := false } ∧
    (run envAllGood none).ret = true := by
  exact ⟨rfl, rfl, by decide⟩

/-- One explicit wait construction in automate_poster_v1.py: the method
it appears in, its source line, and the maximum-wait duration in seconds
passed to `WebDriverWait`. -/
structure WaitSite where
  method : String
  sourceLine : Nat
  timeoutSeconds : Nat
deriving DecidableEq, Repr

/-- Every `WebDriverWait` construction in automate_poster_v1.py.  The
site at line 157 builds `self.wait`, the session default used by every
stage that does not construct its own wait; the remaining sites are local
waits constructed inside individual stage methods. -/
def waitSites : List WaitSite :=
  [⟨"setup_driver", 157, 15⟩,
   ⟨"fill_tinymce_field_by_label", 802, 10⟩,
   ⟨"fill_tinymce_field_by_label", 811, 10⟩,
   ⟨"click_create_and_confirm", 842, 10⟩,
   ⟨"click_create_and_confirm", 889, 10⟩,
   ⟨"click_create_and_confirm", 907, 10⟩,
   ⟨"select_applicable_courses", 929, 30⟩,
   ⟨"set_eligibility_criteria", 1212, 30⟩,
   ⟨"setup_hiring_workflow", 1394, 30⟩]

/-- The three long-running stages that escalate to a 30-second wait. -/
def longRunningMethods : List String :=
  ["select_applicable_courses", "set_eligibility_criteria", "setup_hiring_workflow"]

/-- The stage methods that construct their own 10-second waits, shorter
than the 15-second session default. -/
def shortLocalWaitMethods : List String :=
  ["fill_tinymce_field_by_label", "click_create_and_confirm"]

/-- C8 counterexample: the wait at line 802, inside
`fill_tinymce_field_by_label`, uses a 10-second budget — it belongs to
none of the long-running stages and is strictly shorter than the claimed
15-second minimum, refuting the claim that every wait uses 15 except the
long-running stages' 30. -/
theorem wait_budget_counterexample :
    WaitSite.mk "fill_tinymce_field_by_label" 802 10 ∈ waitSites ∧
    WaitSite.mk "fill_tinymce_field_by_label" 802 10 ∉
      waitSites.filter (fun s => s.timeoutSeconds = 15 || s.timeoutSeconds = 30) ∧
    (10 : Nat) < 15 := by decide

/-- C8 (amended): the session default wait is 15 seconds and the three
long-running stages (applicable courses, eligibility criteria, hiring
workflow) escalate to 30 seconds, but the TinyMCE rich-text stages and
the create-and-confirm stage construct their own 10-second waits,
shorter than the session default. -/
theorem wait_budget_policy (s : WaitSite) (h : s ∈ waitSites) :
    s.timeoutSeconds =
      if s.method ∈ longRunningMethods then 30
      else if s.method ∈ shortLocalWaitMethods then 10
      else 15 := by
  fin_cases h <;> decide

/-- Closed witness for the amended C8 theorem at the session-default
site. -/
theorem wait_budget_policy_witness :
    WaitSite.mk "setup_driver" 157 15 ∈ waitSites ∧
    (WaitSite.mk "setup_driver" 157 15).timeoutSeconds =
      (if (WaitSite.mk "setup_driver" 157 15).method ∈ longRunningMethods then 30
       else if (WaitSite.mk "setup_driver" 157 15).method ∈ shortLocalWaitMethods then 10
       else 15) :=
  ⟨by decide, wait_budget_policy (WaitSite.mk "setup_driver" 157 15) (by decide)⟩

/-- Model of Python `str.isdigit` for ASCII content: true iff the string
is non-empty and every character is a digit. -/
def pyIsDigit (s : String) : Bool :=
  !s.data.isEmpty && s.data.all Char.isDigit

/-- The salary coercion performed by the Streamlit form submit handler
(src/smart_post/main.py lines 142-143):
`int(min_salary) if min_salary.isdigit() else 0`. -/
def form_salary_value (raw : String) : Nat :=
  if pyIsDigit raw then raw.toNat?.getD 0 else 0

/-- C9: the pipeline imposes no check that minimum salary is at most
maximum salary — the CTC stage's result is identical for every pair of
integers, and `run`'s result is unchanged by replacing the salary pair of
the job record with any other pair — and when the operator-entered salary
text is not composed entirely of digits, the caller-side form coerces it
silently to 0 before constructing the job record. -/
theorem no_salary_validation (env : RunEnv) (cenv : CtcEnv) (jd : JobData)
    (a b m M : Int) (raw : String) (h : pyIsDigit raw = false) :
    (add_ctc_details cenv a b).1 = (add_ctc_details cenv m M).1 ∧
    (run env (some { jd with min_salary := a, max_salary := b })).ret =
      (run env (some jd)).ret ∧
    form_salary_value raw = 0 := by
  refine ⟨?_, ?_, ?_⟩
  · rw [add_ctc_details_fst, add_ctc_details_fst]
  · have hso : stageOutcomes env { jd with min_salary := a, max_salary := b } =
        stageOutcomes env jd := by
      unfold stageOutcomes
      rw [add_ctc_details_fst, add_ctc_details_fst]
    show (run env (some { jd with min_salary := a, max_salary := b })).ret = _
    simp only [run, Option.getD_some, hso]
  · unfold form_salary_value
    rw [h]
    rfl

/-- Closed witness for the C9 theorem: the string "12a" is not composed
entirely of digits and is coerced to 0; a job record with minimum salary
above maximum salary leaves the CTC stage and the run outcome unchanged. -/
theorem no_salary_validation_witness :
    pyIsDigit "12a" = false ∧
    ((add_ctc_details ctcEnvGood 1800000 1200000).1 =
        (add_ctc_details ctcEnvGood 1200000 1800000).1 ∧
      (run envAllGood
          (some { defaultRunJobData with min_salary := 1800000,
                                         max_salary := 1200000 })).ret =
        (run envAllGood (some defaultRunJobData)).ret ∧
      form_salary_value "12a" = 0) :=
  ⟨by decide,
   no_salary_validation envAllGood ctcEnvGood defaultRunJobData
     1800000 1200000 1200000 1800000 "12a" (by decide)⟩
